import Mathlib

/-!
Shallow embedding of the spaced-repetition scheduling engine of the
FraserHackathonProject repository (src/FSRS.py and src/main.py).

Python floats are modelled as real numbers.  Grades are the strings the
program passes around.  The FSRS class's parameter dictionary also holds
w2, w3, w5, w6, w7, w8, w15 and w16, but only w1, w4, w11 and w12 are ever
read (the locals w15/w16 in stability_increase shadow the dictionary
entries), so the embedding keeps exactly the read ones.
-/

namespace FSRS

/-- The parameter dictionary of FSRS.__init__ restricted to the keys the
methods read; every default value is 1.0. -/
structure Params where
  w1 : ℝ
  w4 : ℝ
  w11 : ℝ
  w12 : ℝ

/-- The default parameters built when FSRS() is called with params=None,
which is the only way the application ever constructs the class. -/
def defaultParams : Params := { w1 := 1, w4 := 1, w11 := 1, w12 := 1 }

/-- FSRS.calculate_retrievability: literally (1 + (t / S) ** -1) ** -1.
For t, S > 0 every reciprocal is of a nonzero number, so the Lean
convention for inverse of zero is never exercised there. -/
noncomputable def calculate_retrievability (t S : ℝ) : ℝ :=
  (1 + (t / S)⁻¹)⁻¹

/-- The local f_S of FSRS.stability_increase:
max(1, (math.log(S + 1) / math.log(2)) ** -1). -/
noncomputable def f_S (S : ℝ) : ℝ :=
  max 1 (Real.log (S + 1) / Real.log 2)⁻¹

/-- The local f_R of FSRS.stability_increase:
max(1, (math.log(R + 1) / math.log(2)) ** -1). -/
noncomputable def f_R (R : ℝ) : ℝ :=
  max 1 (Real.log (R + 1) / Real.log 2)⁻¹

/-- The local w15 of FSRS.stability_increase: 0 for Again, 1 for Good or
Easy, 0.5 otherwise (so also 0.5 for any unrecognized grade string). -/
def w15 (grade : String) : ℝ :=
  if grade = "Again" then 0
  else if grade = "Good" ∨ grade = "Easy" then 1
  else 0.5

/-- The local w16 of FSRS.stability_increase: 1 for Hard or Good, 3
otherwise (so 3 for Easy, Again and any unrecognized grade string). -/
def w16 (grade : String) : ℝ :=
  if grade = "Hard" ∨ grade = "Good" then 1 else 3

/-- FSRS.stability_increase.  The source also computes
G = grade_map.get(grade, 3), a dead local that no later line reads; the
embedding drops that dead computation and keeps everything the return
value depends on: max(1, (f_D * f_S * f_R) * w1 * w15 * w16) with
f_D = 11 - D. -/
noncomputable def stability_increase (p : Params) (S D R : ℝ) (grade : String) : ℝ :=
  max 1 ((11 - D) * f_S S * f_R R * p.w1 * w15 grade * w16 grade)

/-- FSRS.update_stability: for grade Again,
min(current_S, current_S * D ** -w12 * w11); otherwise
current_S * stability_increase(current_S, D, R, grade).  Python's float
power on a positive base is real exponentiation, embedded as rpow. -/
noncomputable def update_stability (p : Params) (S D R : ℝ) (grade : String) : ℝ :=
  if grade = "Again" then
    min S (S * D ^ (-p.w12) * p.w11)
  else
    S * stability_increase p S D R grade

/-- The difficulty_change dictionary lookup of FSRS.update_difficulty,
with the .get default 0.0 for any grade outside the four keys. -/
def difficulty_change (grade : String) : ℝ :=
  if grade = "Again" then 1.0
  else if grade = "Hard" then 0.2
  else if grade = "Good" then 0.0
  else if grade = "Easy" then -0.2
  else 0.0

/-- FSRS.update_difficulty: add the grade's change, mean-revert
D_new * 0.9 + w4 * 0.1, then clamp with max(1, min(10, D_new)).  The R
parameter is accepted and never read, exactly as in the source. -/
noncomputable def update_difficulty (p : Params) (D : ℝ) (grade : String) (R : ℝ) : ℝ :=
  max 1 (min 10 ((D + difficulty_change grade) * 0.9 + p.w4 * 0.1))

end FSRS

namespace App

open FSRS

/-- The per-item state of main.py's PhysicsQuestion that the grading step
reads and writes: stability, difficulty, last_reviewed, next_review.
Timestamps are modelled as real numbers measured in days. -/
structure Question where
  stability : ℝ
  difficulty : ℝ
  lastReviewed : ℝ
  nextReview : ℝ

/-- The grading tail of PhysicsFlashcardStudyApp.run_study_session
(main.py lines 244-250): the app updates the question's stability with
update_stability passing len(self.questions) as the R argument, updates
its difficulty likewise, and sets next_review to now plus the new
stability in days; last_reviewed is not written by this code.  numQ is
len(self.questions). -/
noncomputable def recordReview (p : Params) (numQ : ℕ) (q : Question)
    (grade : String) (now : ℝ) : Question :=
  let newS := update_stability p q.stability q.difficulty (numQ : ℝ) grade
  let newD := update_difficulty p q.difficulty grade (numQ : ℝ)
  { stability := newS
    difficulty := newD
    lastReviewed := q.lastReviewed
    nextReview := now + newS }

/-- A question as the selection step of run_study_session sees it: its
category identifier and its next_review time.  Times are modelled as
rationals so that concrete selections can be computed. -/
structure SchedItem where
  qid : String
  nextReview : ℚ
  stability : ℚ
deriving DecidableEq

/-- The candidate set of the selection step of run_study_session
(main.py lines 208-210): the questions whose next_review <= current_time,
or, when that list is empty, all questions of the session. -/
def candidates (qs : List SchedItem) (now : ℚ) : List SchedItem :=
  let reviewable := qs.filter fun q => q.nextReview ≤ now
  if reviewable.isEmpty then qs else reviewable

/-- The fold Python's min(reviewable_questions, key=lambda q: q.next_review)
performs: scan the list keeping the current best, replacing it only on a
strictly smaller key, so the first of several minima wins. -/
def minByNextReview (h : SchedItem) (t : List SchedItem) : SchedItem :=
  t.foldl (fun b q => if q.nextReview < b.nextReview then q else b) h

/-- The selection step of run_study_session (main.py lines 208-212):
question_to_review = min(reviewable_questions, key=lambda q: q.next_review)
over the candidate set; none only when the session has no questions. -/
def selectNext (qs : List SchedItem) (now : ℚ) : Option SchedItem :=
  match candidates qs now with
  | [] => none
  | h :: t => some (minByNextReview h t)

end App

namespace FSRS

/-- C1: for stability S > 0, difficulty D in [1,10], retrievability R in
(0,1] and any grade other than Again, the stability increase factor is at
least 1 and update_stability does not decrease the stability. -/
theorem C1_nonlapse_stability_nondecrease (p : Params) (S D R : ℝ) (grade : String)
    (hS : 0 < S) (hD1 : 1 ≤ D) (hD10 : D ≤ 10) (hR0 : 0 < R) (hR1 : R ≤ 1)
    (hg : grade ≠ "Again") :
    1 ≤ stability_increase p S D R grade ∧ S ≤ update_stability p S D R grade := by
  refine ⟨le_max_left 1 _, ?_⟩
  unfold update_stability
  rw [if_neg hg]
  exact le_mul_of_one_le_right hS.le (le_max_left 1 _)

/-- C1 witness: the non-decrease theorem applied at S = 1, D = 5, R = 1,
grade Good with the default parameters. -/
theorem C1_witness :
    1 ≤ stability_increase defaultParams 1 5 1 "Good" ∧
    (1 : ℝ) ≤ update_stability defaultParams 1 5 1 "Good" :=
  C1_nonlapse_stability_nondecrease defaultParams 1 5 1 "Good"
    (by norm_num) (by norm_num) (by norm_num) (by norm_num) (by norm_num) (by decide)

/-- C2: for stability S > 0 and difficulty D in [1,10], a review graded
Again yields exactly min(S, S * D ^ (-w12) * w11), which never exceeds
the pre-review stability S. -/
theorem C2_lapse_formula_and_nonincrease (p : Params) (S D R : ℝ)
    (hS : 0 < S) (hD1 : 1 ≤ D) (hD10 : D ≤ 10) :
    update_stability p S D R "Again" = min S (S * D ^ (-p.w12) * p.w11) ∧
    update_stability p S D R "Again" ≤ S := by
  unfold update_stability
  rw [if_pos rfl]
  exact ⟨rfl, min_le_left _ _⟩

/-- C2 witness: the lapse theorem applied at S = 1, D = 2, R = 1 with the
default parameters. -/
theorem C2_witness :
    update_stability defaultParams 1 2 1 "Again" =
      min 1 (1 * (2 : ℝ) ^ (-defaultParams.w12) * defaultParams.w11) ∧
    update_stability defaultParams 1 2 1 "Again" ≤ 1 :=
  C2_lapse_formula_and_nonincrease defaultParams 1 2 1
    (by norm_num) (by norm_num) (by norm_num)

/-- C3: the code's calculate_retrievability diverges from the specified
formula (1 + t/S)⁻¹: at t = 2, S = 1 the code returns 2/3 while the
specified formula gives 1/3. -/
theorem C3_retrievability_divergence :
    calculate_retrievability 2 1 = 2 / 3 ∧
    (1 + (2 : ℝ) / 1)⁻¹ = 1 / 3 ∧
    calculate_retrievability 2 1 ≠ (1 + (2 : ℝ) / 1)⁻¹ := by
  norm_num [calculate_retrievability]

/-- C5: update_difficulty applies the grade's change, then the 90/10 mean
reversion toward w4, then the clamp to [1,10], for each of the four
grades; with the default parameters, grading Hard at difficulty 5 gives
exactly 4.78. -/
theorem C5_update_difficulty_formula (p : Params) (D R : ℝ) :
    update_difficulty p D "Again" R = max 1 (min 10 (0.9 * (D + 1.0) + 0.1 * p.w4)) ∧
    update_difficulty p D "Hard" R = max 1 (min 10 (0.9 * (D + 0.2) + 0.1 * p.w4)) ∧
    update_difficulty p D "Good" R = max 1 (min 10 (0.9 * (D + 0.0) + 0.1 * p.w4)) ∧
    update_difficulty p D "Easy" R = max 1 (min 10 (0.9 * (D + -0.2) + 0.1 * p.w4)) ∧
    update_difficulty defaultParams 5 "Hard" R = 4.78 := by
  refine ⟨?_, ?_, ?_, ?_, ?_⟩
  · simp only [update_difficulty, difficulty_change, if_pos]
    ring_nf
  · simp [update_difficulty, difficulty_change]
    ring_nf
  · simp [update_difficulty, difficulty_change]
    ring_nf
  · simp [update_difficulty, difficulty_change]
    ring_nf
  · simp [update_difficulty, difficulty_change, defaultParams]
    norm_num [min_def, max_def]

/-- C6: for stability S > 0, difficulty D in [1,10], retrievability
R > 0, a positive lapse parameter w11 and any grade of the enumerated
set, update_stability returns a strictly positive stability. -/
theorem C6_stability_stays_positive (p : Params) (S D R : ℝ) (grade : String)
    (hS : 0 < S) (hD1 : 1 ≤ D) (hD10 : D ≤ 10) (hR : 0 < R) (hw : 0 < p.w11)
    (hg : grade ∈ ["Again", "Hard", "Good", "Easy"]) :
    0 < update_stability p S D R grade := by
  unfold update_stability
  by_cases h : grade = "Again"
  · rw [if_pos h]
    have hD : (0 : ℝ) < D := lt_of_lt_of_le one_pos hD1
    exact lt_min hS (mul_pos (mul_pos hS (Real.rpow_pos_of_pos hD _)) hw)
  · rw [if_neg h]
    exact mul_pos hS (lt_of_lt_of_le one_pos (le_max_left 1 _))

/-- C6 witness: positivity applied at S = 1, D = 5, R = 1, grade Again
with the default parameters. -/
theorem C6_witness : 0 < update_stability defaultParams 1 5 1 "Again" :=
  C6_stability_stays_positive defaultParams 1 5 1 "Again"
    (by norm_num) (by norm_num) (by norm_num) (by norm_num)
    (by norm_num [defaultParams]) (by decide)

/-- C8 counterexample: the unrecognized grade string Banana does not make
update_difficulty fail; the call returns the numeric value 4.6, the same
value grade Good would produce at difficulty 5. -/
theorem C8_counterexample :
    update_difficulty defaultParams 5 "Banana" 1 = 4.6 := by
  simp [update_difficulty, difficulty_change, defaultParams]
  norm_num [min_def, max_def]

/-- C8 amended: a grade outside the enumerated set is silently accepted:
update_difficulty applies the dictionary default 0.0, the change of grade
Good, and stability_increase runs its else branches with w15 = 0.5 and
w16 = 3, so update_stability multiplies by that factor instead of
failing. -/
theorem C8_unknown_grade_silently_defaults (p : Params) (S D R : ℝ) (grade : String)
    (hg : grade ∉ ["Again", "Hard", "Good", "Easy"]) :
    update_difficulty p D grade R = update_difficulty p D "Good" R ∧
    stability_increase p S D R grade =
      max 1 ((11 - D) * f_S S * f_R R * p.w1 * 0.5 * 3) ∧
    update_stability p S D R grade = S * stability_increase p S D R grade := by
  have h1 : grade ≠ "Again" := by rintro rfl; exact hg (by decide)
  have h2 : grade ≠ "Hard" := by rintro rfl; exact hg (by decide)
  have h3 : grade ≠ "Good" := by rintro rfl; exact hg (by decide)
  have h4 : grade ≠ "Easy" := by rintro rfl; exact hg (by decide)
  refine ⟨?_, ?_, ?_⟩
  · simp [update_difficulty, difficulty_change, h1, h2, h3, h4]
  · simp [stability_increase, w15, w16, h1, h2, h3, h4]
  · simp [update_stability, h1]

/-- C8 witness: the silent-default theorem applied to the grade string
Banana at S = 1, D = 5, R = 1 with the default parameters. -/
theorem C8_witness :
    update_difficulty defaultParams 5 "Banana" 1 =
      update_difficulty defaultParams 5 "Good" 1 ∧
    stability_increase defaultParams 1 5 1 "Banana" =
      max 1 ((11 - 5) * f_S 1 * f_R 1 * defaultParams.w1 * 0.5 * 3) ∧
    update_stability defaultParams 1 5 1 "Banana" =
      1 * stability_increase defaultParams 1 5 1 "Banana" :=
  C8_unknown_grade_silently_defaults defaultParams 1 5 1 "Banana" (by decide)

/-- C9 counterexample: calculate_retrievability does not fail on the
invalid stability S = -1; at t = 2 it returns the numeric value 2, which
moreover lies outside (0,1]. -/
theorem C9_counterexample :
    calculate_retrievability 2 (-1) = 2 ∧ ¬ calculate_retrievability 2 (-1) ≤ 1 := by
  norm_num [calculate_retrievability]

/-- C9 amended: the Memory Model performs no domain validation: a
negative stability flows through calculate_retrievability and
update_stability, and a difficulty outside [1,10] is clamped by
update_difficulty, always producing numeric results and never an
error. -/
theorem C9_no_domain_validation :
    1 < calculate_retrievability 2 (-1) ∧
    update_stability defaultParams (-1) 5 1 "Again" = -1 ∧
    update_difficulty defaultParams 20 "Good" 1 = 10 := by
  refine ⟨?_, ?_, ?_⟩
  · norm_num [calculate_retrievability]
  · unfold update_stability
    rw [if_pos rfl]
    norm_num [defaultParams, Real.rpow_neg_one, min_def]
  · simp [update_difficulty, difficulty_change, defaultParams]
    norm_num [min_def, max_def]

/-- C10: the retrievability argument of update_difficulty has no
influence on its result. -/
theorem C10_update_difficulty_ignores_R (p : Params) (D : ℝ) (grade : String)
    (R1 R2 : ℝ) :
    update_difficulty p D grade R1 = update_difficulty p D grade R2 := rfl

end FSRS

namespace App

open FSRS

/-- C4 counterexample: recording a review at now = 10 on a question whose
last_reviewed is 0 leaves last_reviewed at 0, while the claim requires it
to be set to now. -/
theorem C4_counterexample :
    (recordReview defaultParams 4 ⟨1, 5, 0, 0⟩ "Good" 10).lastReviewed = 0 ∧
    (0 : ℝ) ≠ 10 :=
  ⟨rfl, by norm_num⟩

/-- C4 amended: the grading step updates stability and difficulty passing
the number of questions of the session as the R argument, leaves
last_reviewed unchanged, and sets next_review to now plus the new
stability in days. -/
theorem C4_record_review_behavior (p : Params) (numQ : ℕ) (q : Question)
    (grade : String) (now : ℝ) :
    (recordReview p numQ q grade now).stability =
      update_stability p q.stability q.difficulty (numQ : ℝ) grade ∧
    (recordReview p numQ q grade now).difficulty =
      update_difficulty p q.difficulty grade (numQ : ℝ) ∧
    (recordReview p numQ q grade now).lastReviewed = q.lastReviewed ∧
    (recordReview p numQ q grade now).nextReview =
      now + (recordReview p numQ q grade now).stability :=
  ⟨rfl, rfl, rfl, rfl⟩

/-- The running minimum of minByNextReview is one of the scanned items. -/
theorem minByNextReview_mem (a : SchedItem) (t : List SchedItem) :
    minByNextReview a t ∈ a :: t := by
  induction t generalizing a with
  | nil => simp [minByNextReview]
  | cons q t ih =>
    simp only [minByNextReview, List.foldl_cons] at ih ⊢
    by_cases hc : q.nextReview < a.nextReview
    · rw [if_pos hc]
      exact List.mem_cons_of_mem a (ih q)
    · rw [if_neg hc]
      rcases List.mem_cons.mp (ih a) with h1 | h1
      · exact List.mem_cons.mpr (Or.inl h1)
      · exact List.mem_cons_of_mem a (List.mem_cons_of_mem q h1)

/-- The running minimum of minByNextReview has the least next_review of
the scanned items. -/
theorem minByNextReview_le (a : SchedItem) (t : List SchedItem) :
    ∀ x ∈ a :: t, (minByNextReview a t).nextReview ≤ x.nextReview := by
  induction t generalizing a with
  | nil =>
    intro x hx
    rw [List.mem_singleton] at hx
    subst hx
    simp [minByNextReview]
  | cons q t ih =>
    intro x hx
    simp only [minByNextReview, List.foldl_cons] at ih ⊢
    rcases le_or_lt a.nextReview q.nextReview with hc | hc
    · rw [if_neg (not_lt.mpr hc)]
      rcases List.mem_cons.mp hx with rfl | hx'
      · exact ih x x (List.mem_cons_self x t)
      · rcases List.mem_cons.mp hx' with rfl | hx''
        · exact le_trans (ih a a (List.mem_cons_self a t)) hc
        · exact ih a x (List.mem_cons_of_mem a hx'')
    · rw [if_pos hc]
      rcases List.mem_cons.mp hx with rfl | hx'
      · exact le_trans (ih q q (List.mem_cons_self q t)) hc.le
      · rcases List.mem_cons.mp hx' with rfl | hx''
        · exact ih x x (List.mem_cons_self x t)
        · exact ih q x (List.mem_cons_of_mem q hx'')

/-- C7 counterexample: with two items tied at next_review = 5, selection
returns whichever item comes first in the session's question list, not
the one with the smaller identifier: reversing the list flips the result,
and a mastered item (here with stability 999) is still chosen by the
fallback when nothing is due. -/
theorem C7_counterexample :
    selectNext [⟨"b", 5, 0⟩, ⟨"a", 5, 0⟩] 10 = some ⟨"b", 5, 0⟩ ∧
    selectNext [⟨"a", 5, 0⟩, ⟨"b", 5, 0⟩] 10 = some ⟨"a", 5, 0⟩ ∧
    (⟨"b", 5, 0⟩ : SchedItem) ≠ ⟨"a", 5, 0⟩ ∧
    selectNext [⟨"m", 100, 999⟩, ⟨"n", 200, 0⟩] 0 = some ⟨"m", 100, 999⟩ := by
  refine ⟨?_, ?_, ?_, ?_⟩ <;> decide

/-- C7 amended: the selected item always belongs to the candidate set
(the due items, or all items of the session when none are due), has the
least next_review among the candidates, and the selection at a fixed time
is deterministic: a second call returns the same item. -/
theorem C7_select_next_earliest (qs : List SchedItem) (now : ℚ) (q : SchedItem)
    (h : selectNext qs now = some q) :
    q ∈ candidates qs now ∧
    (∀ r ∈ candidates qs now, q.nextReview ≤ r.nextReview) ∧
    (∀ q2, selectNext qs now = some q2 → q2 = q) := by
  have huniq : ∀ q2, selectNext qs now = some q2 → q2 = q := by
    intro q2 h2
    exact Option.some.inj (h2.symm.trans h)
  unfold selectNext at h
  cases hc : candidates qs now with
  | nil =>
    rw [hc] at h
    cases h
  | cons a t =>
    rw [hc] at h
    have hq : minByNextReview a t = q := Option.some.inj h
    subst hq
    exact ⟨minByNextReview_mem a t, minByNextReview_le a t, huniq⟩

/-- C7 witness: membership of the selected item in the candidate set at a
concrete one-item session where nothing is due. -/
theorem C7_witness :
    (⟨"x", 3, 0⟩ : SchedItem) ∈ candidates [⟨"x", 3, 0⟩] 0 :=
  (C7_select_next_earliest [⟨"x", 3, 0⟩] 0 ⟨"x", 3, 0⟩ (by decide)).1

end App
